import Mathlib

set_option maxRecDepth 40000

/-!
Shallow embedding of the IP-Management repository's core:
the subnet partitioning engine (`src/ip_management/core/ip_calculator.py`),
the allocation service (`src/ip_management/services/ip_service.py`) and the
relevant store constraints (`src/ip_management/models/database.py`).

IPv4 addresses are modelled as natural numbers below 2^32; the Python
`ipaddress` operations used by the source (network containment, `hosts()`,
`list.index`) are embedded as executable functions on those numbers.
-/

namespace IPMgmt

/-- Numeric value of the dotted-quad IPv4 address `a.b.c.d`. -/
def ipv4 (a b c d : Nat) : Nat := ((a * 256 + b) * 256 + c) * 256 + d

/-- `IPCalculator.RESERVED_START_COUNT`: first six host addresses are reserved. -/
def RESERVED_START_COUNT : Nat := 6

/-- `IPCalculator.RESERVED_END_COUNT`: the last host address is reserved. -/
def RESERVED_END_COUNT : Nat := 1

/-- An IPv4 network: the (masked) network base address and the mask length,
as produced by Python's `IPv4Network(..., strict=False)`. -/
structure Net where
  netBase : Nat
  maskLen : Nat
deriving DecidableEq

/-- Build the network for `subnet/maskLen` with `strict=False`: host bits of
`subnet` are masked away. -/
def mkNetwork (subnet maskLen : Nat) : Net :=
  ⟨subnet / 2 ^ (32 - maskLen) * 2 ^ (32 - maskLen), maskLen⟩

/-- `IPv4Network.num_addresses`. -/
def Net.numAddresses (n : Net) : Nat := 2 ^ (32 - n.maskLen)

/-- The number of host addresses (network and broadcast excluded), the
`total_hosts` quantity of `calculate_subnet_info`. -/
def Net.totalHosts (n : Net) : Nat := n.numAddresses - 2

/-- Python `ip in network`: containment includes the network and broadcast
addresses. -/
def ipInNetwork (ip : Nat) (n : Net) : Bool :=
  decide (n.netBase ≤ ip ∧ ip < n.netBase + n.numAddresses)

/-- The list `start, start + 1, ..., start + count - 1`. -/
def hostRangeList (start : Nat) : Nat → List Nat
  | 0 => []
  | count + 1 => start :: hostRangeList (start + 1) count

/-- Python `list(network.hosts())`: all addresses except network and
broadcast; for /31 both addresses, for /32 the single address. -/
def Net.hostsList (n : Net) : List Nat :=
  if n.maskLen = 32 then [n.netBase]
  else if n.maskLen = 31 then [n.netBase, n.netBase + 1]
  else hostRangeList (n.netBase + 1) (n.numAddresses - 2)

/-- Python `list.index`: index of the first occurrence, `none` when the
element is absent (where CPython raises `ValueError`). -/
def pyIndex (target : Nat) : List Nat → Option Nat
  | [] => none
  | x :: xs => if x = target then some 0 else (pyIndex target xs).map (· + 1)

/-- The `IPRange` dataclass of `ip_calculator.py`. -/
structure IPRange where
  start_ip : Nat
  end_ip : Nat
  is_reserved : Bool
  description : String
deriving DecidableEq

/-- Errors raised by the calculator: `InvalidSubnetError` (the spec's
`MalformedAddress`/`MalformedMask`) and `InsufficientIPSpaceError` (the
spec's `NetworkTooSmall`). -/
inductive CalcError where
  | invalidSubnet
  | insufficientIPSpace
deriving DecidableEq

/-- Mask argument of `calculate_subnet_info`: either a CIDR suffix `/n` or a
dotted-decimal mask (given by its 32-bit numeric value). -/
inductive MaskInput where
  | cidr (n : Nat)
  | dotted (m : Nat)
deriving DecidableEq

/-- Fuelled popcount; with fuel 8 it is exact on octets, matching Python's
`bin(int(octet)).count(chr(49))` for `0 ≤ octet < 256`. -/
def bitCountFuel : Nat → Nat → Nat
  | 0, _ => 0
  | fuel + 1, n => if n = 0 then 0 else n % 2 + bitCountFuel fuel (n / 2)

/-- The `i`-th octet (0 = least significant) of a 32-bit value. -/
def octet (m i : Nat) : Nat := m / 2 ^ (8 * i) % 256

/-- The dotted-decimal-to-CIDR conversion of `calculate_subnet_info`:
`sum(bin(int(octet)).count(chr(49)) for octet in ...)`. -/
def dottedToMaskLen (m : Nat) : Nat :=
  bitCountFuel 8 (octet m 3) + bitCountFuel 8 (octet m 2) +
    bitCountFuel 8 (octet m 1) + bitCountFuel 8 (octet m 0)

/-- Mask normalization performed by `calculate_subnet_info`: a CIDR suffix
must be a valid mask length (Python raises `ValueError`, caught and
re-raised as `InvalidSubnetError`, beyond 32); a dotted mask must parse as
an IPv4 address and is converted by counting its one bits. -/
def normalizeMask : MaskInput → Except CalcError Nat
  | .cidr n => if n ≤ 32 then .ok n else .error .invalidSubnet
  | .dotted m => if m < 2 ^ 32 then .ok (dottedToMaskLen m) else .error .invalidSubnet

/-- The contiguous mask of length `n`, i.e. the numeric value of the
dotted-decimal mask equivalent to the CIDR suffix `/n`. -/
def maskOfLen (n : Nat) : Nat := 2 ^ 32 - 2 ^ (32 - n)

/-- `IPCalculator._generate_ip_ranges`: first six hosts reserved, the
middle assignable, the last host reserved; each block is appended only
under the source's length guards. -/
def generateIpRanges (hosts : List Nat) : List IPRange :=
  (if RESERVED_START_COUNT ≤ hosts.length then
    [⟨hosts.getD 0 0, hosts.getD (RESERVED_START_COUNT - 1) 0, true,
      "Management IPs (Reserved)"⟩]
   else []) ++
  (if RESERVED_START_COUNT ≤ hosts.length - RESERVED_END_COUNT - 1 then
    [⟨hosts.getD RESERVED_START_COUNT 0,
      hosts.getD (hosts.length - RESERVED_END_COUNT - 1) 0, false,
      "Assignable IPs"⟩]
   else []) ++
  (if RESERVED_END_COUNT ≤ hosts.length then
    [⟨hosts.getD (hosts.length - 1) 0, hosts.getD (hosts.length - 1) 0, true,
      "Management IP (Reserved)"⟩]
   else [])

/-- `IPCalculator.calculate_subnet_info`: parse the address, normalize the
mask, reject subnets whose host count is below the reserved blocks plus one
assignable address, and generate the ranges. -/
def calcSubnetInfo (subnet : Nat) (mask : MaskInput) :
    Except CalcError (Net × List IPRange) :=
  if subnet < 2 ^ 32 then
    match normalizeMask mask with
    | .error e => .error e
    | .ok maskLen =>
      if (mkNetwork subnet maskLen).totalHosts <
          RESERVED_START_COUNT + RESERVED_END_COUNT + 1 then
        .error .insufficientIPSpace
      else
        .ok (mkNetwork subnet maskLen,
             generateIpRanges (mkNetwork subnet maskLen).hostsList)
  else .error .invalidSubnet

/-- `IPCalculator.get_default_gateway`: the first host address, or the
network address when the host list is empty. -/
def getDefaultGateway (n : Net) : Nat :=
  match n.hostsList with
  | [] => n.netBase
  | h :: _ => h

/-- `IPCalculator.get_net_start_end`: seventh host through the
second-to-last host, guarded by the source's length check. -/
def getNetStartEnd (n : Net) : Except CalcError (Nat × Nat) :=
  let hosts := n.hostsList
  if hosts.length < RESERVED_START_COUNT + RESERVED_END_COUNT then
    .error .insufficientIPSpace
  else
    .ok (hosts.getD RESERVED_START_COUNT 0,
         hosts.getD (hosts.length - (RESERVED_END_COUNT + 1)) 0)

/-- The last host address `hosts[-1]` of a network. -/
def lastHostAddr (n : Net) : Nat := n.hostsList.getD (n.hostsList.length - 1) 0

/-- The broadcast address of a network. -/
def broadcastAddr (n : Net) : Nat := n.netBase + n.numAddresses - 1

/-- `IPCalculator.is_ip_assignable`. The source calls `hosts.index(ip)`
after a containment check that also accepts the network and broadcast
addresses; on those the call raises an uncaught `ValueError`, modelled as
`Except.error`. -/
def is_ip_assignable (ip : Nat) (n : Net) : Except Unit Bool :=
  if ipInNetwork ip n then
    match pyIndex ip n.hostsList with
    | none => .error ()
    | some ipIndex =>
      .ok (!(decide (ipIndex < RESERVED_START_COUNT) ||
             decide (n.hostsList.length - RESERVED_END_COUNT ≤ ipIndex)))
  else .ok false

/-- Result record of `IPCalculator.validate_vlan_configuration` (the
`VLANCalculationResult` schema), with addresses kept numeric. -/
structure VlanCalcResult where
  vlan_id : Nat
  netBase : Nat
  maskLen : Nat
  default_gateway : Nat
  net_start : Nat
  net_end : Nat
  total_ips : Nat
  assignable_ips : Nat
  reserved_ranges : List IPRange
deriving DecidableEq

/-- `IPCalculator.validate_vlan_configuration`: range-check the VLAN id,
compute subnet info, gateway and assignable bounds; `assignable_ips` is the
length of the list of non-reserved ranges, exactly as in the source. -/
def validate_vlan_configuration (vlanTag subnet : Nat) (mask : MaskInput) :
    Except CalcError VlanCalcResult :=
  if vlanTag < 1 ∨ 4094 < vlanTag then .error .invalidSubnet
  else
    match calcSubnetInfo subnet mask with
    | .error e => .error e
    | .ok (net, ranges) =>
      match getNetStartEnd net with
      | .error e => .error e
      | .ok startEnd =>
        .ok { vlan_id := vlanTag
              netBase := net.netBase
              maskLen := net.maskLen
              default_gateway := getDefaultGateway net
              net_start := startEnd.1
              net_end := startEnd.2
              total_ips := net.numAddresses - 2
              assignable_ips := (ranges.filter (fun r => !r.is_reserved)).length
              reserved_ranges := ranges.filter (fun r => r.is_reserved) }

/-- A row of the `ip_assignments` table (`IPAssignment` in
`models/database.py`), with addresses numeric. -/
structure AssignmentRec where
  rid : Nat
  vlanRef : Nat
  ip_address : Nat
  mac_address : Option Nat
  ci_name : String
  is_active : Bool
deriving DecidableEq

/-- The VLAN fields `assign_ip` reads: the stored subnet and the mask
length its stored netmask denotes. -/
structure VLANRec where
  vlanKey : Nat
  subnet : Nat
  maskP : Nat
deriving DecidableEq

/-- Input of `assign_ip` (the `IPAssignmentCreate` schema). -/
structure AssignRequest where
  vlanKey : Nat
  ip_address : Nat
  mac_address : Option Nat
  ci_name : String
deriving DecidableEq

/-- Outcomes of `assign_ip`. `notInSubnet`, `alreadyAssigned` and
`macAlreadyAssigned` are the distinct `IPAllocationError` messages,
`reservedIP` is `ReservedIPError`; `valueErr` and `integrityErr` are the
exceptions (`ValueError` from `hosts.index`, `IntegrityError` from the
store's unique constraints) that `assign_ip` does not catch. -/
inductive AssignOutcome where
  | ok (a : AssignmentRec)
  | notInSubnet
  | reservedIP
  | alreadyAssigned
  | macAlreadyAssigned
  | valueErr
  | integrityErr
deriving DecidableEq

/-- Validation phase of `assign_ip` (`ip_service.py` lines 215-227): subnet
containment, then `is_ip_assignable`; touches no shared state. -/
def assignValidate (vlan : VLANRec) (req : AssignRequest) : Option AssignOutcome :=
  let net := mkNetwork vlan.subnet vlan.maskP
  if ipInNetwork req.ip_address net then
    match is_ip_assignable req.ip_address net with
    | .error _ => some .valueErr
    | .ok false => some .reservedIP
    | .ok true => none
  else some .notInSubnet

/-- Duplicate-check phase of `assign_ip` (lines 229-242): two `SELECT`
queries against the store. As in the source, neither query filters on
`is_active`. -/
def assignDupCheck (store : List AssignmentRec) (req : AssignRequest) :
    Option AssignOutcome :=
  if (store.find? (fun a => a.ip_address == req.ip_address)).isSome then
    some .alreadyAssigned
  else
    match req.mac_address with
    | some m =>
      if (store.find? (fun a => a.mac_address == some m)).isSome then
        some .macAlreadyAssigned
      else none
    | none => none

/-- Insert phase of `assign_ip` (lines 244-248): the commit is accepted or
rejected by the store's unique constraints `uq_ip_address` and
`uq_mac_address` (`database.py` lines 198-204), which span active and
inactive rows alike; a violation surfaces as an uncaught `IntegrityError`. -/
def assignInsert (store : List AssignmentRec) (newId : Nat) (req : AssignRequest) :
    AssignOutcome × List AssignmentRec :=
  if store.any (fun a => a.ip_address == req.ip_address) then (.integrityErr, store)
  else if (match req.mac_address with
           | some m => store.any (fun a => a.mac_address == some m)
           | none => false) then (.integrityErr, store)
  else
    let a : AssignmentRec :=
      ⟨newId, req.vlanKey, req.ip_address, req.mac_address, req.ci_name, true⟩
    (.ok a, store ++ [a])

/-- One `assign_ip` call whose duplicate-check queries read the store
snapshot `checkStore` while its insert commits against `store`: the three
phases are separate store operations, not one atomic unit, so a concurrent
interleaving can run the checks against an older snapshot than the
insert. -/
def assignAfterChecks (checkStore : List AssignmentRec) (vlan : VLANRec)
    (store : List AssignmentRec) (newId : Nat) (req : AssignRequest) :
    AssignOutcome × List AssignmentRec :=
  match assignValidate vlan req with
  | some e => (e, store)
  | none =>
    match assignDupCheck checkStore req with
    | some e => (e, store)
    | none => assignInsert store newId req

/-- `IPManagementService.assign_ip` run without interference: checks and
insert read and write the same store. -/
def assign_ip (store : List AssignmentRec) (vlan : VLANRec) (newId : Nat)
    (req : AssignRequest) : AssignOutcome × List AssignmentRec :=
  assignAfterChecks store vlan store newId req

/-- `IPManagementService.release_ip`: look the assignment up by id; absent
gives `False`, otherwise set `is_active = False` and keep the row. -/
def release_ip (store : List AssignmentRec) (rid : Nat) :
    Bool × List AssignmentRec :=
  if store.any (fun a => a.rid == rid) then
    (true, store.map (fun a => if a.rid == rid then { a with is_active := false } else a))
  else (false, store)

/-- A row of the `domains` table. -/
structure DomainRec where
  did : Nat
  code : String
  dname : String
  is_active : Bool
deriving DecidableEq

/-- Outcome of `create_domain`: the source inserts and maps any
`IntegrityError` from the unique index on `code` (`database.py` line 46,
over all rows, active or not) to a duplicate-code error. -/
inductive DomainCreateOutcome where
  | ok (d : DomainRec)
  | duplicateCode
deriving DecidableEq

/-- `IPManagementService.create_domain`. -/
def create_domain (store : List DomainRec) (newId : Nat) (code dname : String)
    (isActive : Bool) : DomainCreateOutcome × List DomainRec :=
  if store.any (fun d => d.code == code) then (.duplicateCode, store)
  else
    let d : DomainRec := ⟨newId, code, dname, isActive⟩
    (.ok d, store ++ [d])

/-- A row of the `value_streams` table. -/
structure ValueStreamRec where
  vsId : Nat
  domainRef : Nat
  vsCode : String
  is_active : Bool
deriving DecidableEq

/-- A row of the `zones` table (the fields deletion needs). -/
structure ZoneRec where
  zId : Nat
  vsRef : Nat
  is_active : Bool
deriving DecidableEq

/-- The containment hierarchy held by the store. -/
structure Hierarchy where
  domains : List DomainRec
  value_streams : List ValueStreamRec
  zones : List ZoneRec
deriving DecidableEq

/-- Outcome of a hierarchy deletion. -/
inductive DeleteOutcome where
  | ok
  | notFound
  | hasActiveChildren
deriving DecidableEq

/-- Modelled from the spec: `delete_domain` is absent from
`src/ip_management/services/ip_service.py` (only the test suite calls it).
Per the spec, `delete_domain(id) -> Ok | HasActiveChildrenError`, a Domain
that owns at least one ValueStream cannot be deleted, and parent existence
is checked before anything else. -/
def delete_domain (h : Hierarchy) (did : Nat) : DeleteOutcome × Hierarchy :=
  if h.domains.any (fun d => d.did == did) then
    if h.value_streams.any (fun vs => vs.domainRef == did) then
      (.hasActiveChildren, h)
    else
      (.ok, { h with domains := h.domains.filter (fun d => !(d.did == did)) })
  else (.notFound, h)

/-- Modelled from the spec: `delete_value_stream` is absent from the
source services. Per the spec (invariant I6), a ValueStream with active
children cannot be deleted. -/
def delete_value_stream (h : Hierarchy) (vsId : Nat) : DeleteOutcome × Hierarchy :=
  if h.value_streams.any (fun vs => vs.vsId == vsId) then
    if h.zones.any (fun z => z.vsRef == vsId && z.is_active) then
      (.hasActiveChildren, h)
    else
      (.ok, { h with value_streams := h.value_streams.filter (fun vs => !(vs.vsId == vsId)) })
  else (.notFound, h)

/-! Helper lemmas about the embedded host-list primitives. -/

theorem length_hostRangeList : ∀ (count start : Nat),
    (hostRangeList start count).length = count := by
  intro count
  induction count with
  | zero => intro start; rfl
  | succ k ih =>
    intro start
    show (start :: hostRangeList (start + 1) k).length = k + 1
    simp [ih (start + 1)]

theorem getD_hostRangeList : ∀ (count start i : Nat), i < count →
    (hostRangeList start count).getD i 0 = start + i := by
  intro count
  induction count with
  | zero => intro start i h; omega
  | succ k ih =>
    intro start i h
    cases i with
    | zero => rfl
    | succ j =>
      show (hostRangeList (start + 1) k).getD j 0 = start + (j + 1)
      rw [ih (start + 1) j (by omega)]
      omega

theorem pyIndex_hostRangeList (target : Nat) : ∀ (count start : Nat),
    pyIndex target (hostRangeList start count) =
      if start ≤ target ∧ target < start + count then some (target - start)
      else none := by
  intro count
  induction count with
  | zero =>
    intro start
    show (none : Option Nat) = _
    rw [if_neg (by omega)]
  | succ k ih =>
    intro start
    show (if start = target then some 0
          else (pyIndex target (hostRangeList (start + 1) k)).map (· + 1)) = _
    by_cases h : start = target
    · subst h
      rw [if_pos rfl, if_pos (by omega), Nat.sub_self]
    · rw [if_neg h, ih (start + 1)]
      by_cases h2 : start + 1 ≤ target ∧ target < start + 1 + k
      · rw [if_pos h2, if_pos (by omega)]
        show some (target - (start + 1) + 1) = some (target - start)
        congr 1
        omega
      · rw [if_neg h2, if_neg (by omega)]
        rfl

theorem maskLen_mkNetwork (subnet maskLen : Nat) :
    (mkNetwork subnet maskLen).maskLen = maskLen := rfl

theorem numAddresses_lb (n : Net) (hp : n.maskLen ≤ 28) : 16 ≤ n.numAddresses := by
  have h : (2 : Nat) ^ 4 ≤ 2 ^ (32 - n.maskLen) :=
    Nat.pow_le_pow_right (by norm_num) (by omega)
  unfold Net.numAddresses
  omega

theorem totalHosts_lb (n : Net) (hp : n.maskLen ≤ 28) : 14 ≤ n.totalHosts := by
  have := numAddresses_lb n hp
  unfold Net.totalHosts
  omega

theorem numAddresses_eq_totalHosts_add_two (n : Net) (hp : n.maskLen ≤ 28) :
    n.numAddresses = n.totalHosts + 2 := by
  have := numAddresses_lb n hp
  unfold Net.totalHosts
  omega

theorem hostsList_of_le28 (n : Net) (hp : n.maskLen ≤ 28) :
    n.hostsList = hostRangeList (n.netBase + 1) n.totalHosts := by
  unfold Net.hostsList
  rw [if_neg (by omega), if_neg (by omega)]
  rfl

theorem maskLen_le28_of_totalHosts (n : Net) (h8 : 8 ≤ n.totalHosts) :
    n.maskLen ≤ 28 := by
  by_contra hc
  have h : (2 : Nat) ^ (32 - n.maskLen) ≤ 2 ^ 3 :=
    Nat.pow_le_pow_right (by norm_num) (by omega)
  unfold Net.totalHosts Net.numAddresses at h8
  omega

theorem generateIpRanges_hostRange (b t : Nat) (ht : 8 ≤ t) :
    generateIpRanges (hostRangeList (b + 1) t) =
      [⟨b + 1, b + 6, true, "Management IPs (Reserved)"⟩,
       ⟨b + 7, b + t - 1, false, "Assignable IPs"⟩,
       ⟨b + t, b + t, true, "Management IP (Reserved)"⟩] := by
  unfold generateIpRanges RESERVED_START_COUNT RESERVED_END_COUNT
  rw [length_hostRangeList]
  rw [if_pos (by omega), if_pos (by omega), if_pos (by omega)]
  rw [getD_hostRangeList t (b + 1) 0 (by omega),
      getD_hostRangeList t (b + 1) (6 - 1) (by omega),
      getD_hostRangeList t (b + 1) 6 (by omega),
      getD_hostRangeList t (b + 1) (t - 1 - 1) (by omega),
      getD_hostRangeList t (b + 1) (t - 1) (by omega)]
  rw [show b + 1 + 0 = b + 1 from by omega, show b + 1 + (6 - 1) = b + 6 from by omega,
      show b + 1 + 6 = b + 7 from by omega,
      show b + 1 + (t - 1 - 1) = b + t - 1 from by omega,
      show b + 1 + (t - 1) = b + t from by omega]
  rfl

theorem ipInNetwork_iff (ip : Nat) (n : Net) :
    ipInNetwork ip n = true ↔ n.netBase ≤ ip ∧ ip < n.netBase + n.numAddresses := by
  simp [ipInNetwork]

theorem calcSubnetInfo_ok {subnet : Nat} {mask : MaskInput} {net : Net}
    {ranges : List IPRange}
    (h : calcSubnetInfo subnet mask = .ok (net, ranges)) :
    normalizeMask mask = .ok net.maskLen ∧ net = mkNetwork subnet net.maskLen ∧
      8 ≤ net.totalHosts ∧ ranges = generateIpRanges net.hostsList := by
  unfold calcSubnetInfo at h
  split at h
  · cases hm : normalizeMask mask with
    | error e => rw [hm] at h; exact absurd h (by simp)
    | ok p =>
      rw [hm] at h
      dsimp only at h
      split at h
      · exact absurd h (by simp)
      · simp only [Except.ok.injEq, Prod.mk.injEq] at h
        obtain ⟨hnet, hranges⟩ := h
        subst hnet
        refine ⟨rfl, rfl, ?_, hranges.symm⟩
        unfold RESERVED_START_COUNT RESERVED_END_COUNT at *
        omega
  · exact Except.noConfusion h

theorem getDefaultGateway_of_le28 (n : Net) (hp : n.maskLen ≤ 28) :
    getDefaultGateway n = n.netBase + 1 := by
  unfold getDefaultGateway
  rw [hostsList_of_le28 n hp]
  obtain ⟨t, ht⟩ : ∃ t, n.totalHosts = t + 1 :=
    ⟨n.totalHosts - 1, by have := totalHosts_lb n hp; omega⟩
  rw [ht]
  rfl

theorem lastHostAddr_of_le28 (n : Net) (hp : n.maskLen ≤ 28) :
    lastHostAddr n = n.netBase + n.totalHosts := by
  have h14 := totalHosts_lb n hp
  unfold lastHostAddr
  rw [hostsList_of_le28 n hp, length_hostRangeList,
      getD_hostRangeList n.totalHosts (n.netBase + 1) (n.totalHosts - 1) (by omega)]
  omega

theorem is_ip_assignable_firstHost (n : Net) (hp : n.maskLen ≤ 28) :
    is_ip_assignable (n.netBase + 1) n = .ok false := by
  have h16 := numAddresses_lb n hp
  have h14 := totalHosts_lb n hp
  have h2 := numAddresses_eq_totalHosts_add_two n hp
  have hin : ipInNetwork (n.netBase + 1) n = true := by
    rw [ipInNetwork_iff]
    omega
  unfold is_ip_assignable
  rw [hostsList_of_le28 n hp, pyIndex_hostRangeList, length_hostRangeList, hin]
  rw [if_pos (show n.netBase + 1 ≤ n.netBase + 1 ∧
        n.netBase + 1 < n.netBase + 1 + n.totalHosts from by omega)]
  rw [Nat.sub_self]
  simp [RESERVED_START_COUNT]

theorem is_ip_assignable_lastHost (n : Net) (hp : n.maskLen ≤ 28) :
    is_ip_assignable (n.netBase + n.totalHosts) n = .ok false := by
  have h16 := numAddresses_lb n hp
  have h14 := totalHosts_lb n hp
  have h2 := numAddresses_eq_totalHosts_add_two n hp
  have hin : ipInNetwork (n.netBase + n.totalHosts) n = true := by
    rw [ipInNetwork_iff]
    omega
  unfold is_ip_assignable
  rw [hostsList_of_le28 n hp, pyIndex_hostRangeList, length_hostRangeList, hin]
  rw [if_pos (show n.netBase + 1 ≤ n.netBase + n.totalHosts ∧
        n.netBase + n.totalHosts < n.netBase + 1 + n.totalHosts from by omega)]
  rw [show n.netBase + n.totalHosts - (n.netBase + 1) = n.totalHosts - 1 from by omega]
  have hd : decide (n.totalHosts - RESERVED_END_COUNT ≤ n.totalHosts - 1) = true := by
    simp [RESERVED_END_COUNT]
  simp only [hd, Bool.or_true, Bool.not_true]
  rfl

theorem is_ip_assignable_netBase (n : Net) (hp : n.maskLen ≤ 28) :
    is_ip_assignable n.netBase n = .error () := by
  have h16 := numAddresses_lb n hp
  have hin : ipInNetwork n.netBase n = true := by
    rw [ipInNetwork_iff]
    omega
  unfold is_ip_assignable
  rw [hostsList_of_le28 n hp, pyIndex_hostRangeList, hin]
  rw [if_neg (show ¬(n.netBase + 1 ≤ n.netBase ∧
        n.netBase < n.netBase + 1 + n.totalHosts) from by omega)]
  simp

theorem is_ip_assignable_broadcast (n : Net) (hp : n.maskLen ≤ 28) :
    is_ip_assignable (broadcastAddr n) n = .error () := by
  have h16 := numAddresses_lb n hp
  have h2 := numAddresses_eq_totalHosts_add_two n hp
  unfold is_ip_assignable broadcastAddr
  have hin : ipInNetwork (n.netBase + n.numAddresses - 1) n = true := by
    rw [ipInNetwork_iff]
    omega
  rw [hostsList_of_le28 n hp, pyIndex_hostRangeList, hin]
  rw [if_neg (show ¬(n.netBase + 1 ≤ n.netBase + n.numAddresses - 1 ∧
        n.netBase + n.numAddresses - 1 < n.netBase + 1 + n.totalHosts) from by omega)]
  simp

theorem assign_ip_of_reserved (store : List AssignmentRec) (vlan : VLANRec)
    (newId : Nat) (req : AssignRequest)
    (hin : ipInNetwork req.ip_address (mkNetwork vlan.subnet vlan.maskP) = true)
    (hres : is_ip_assignable req.ip_address (mkNetwork vlan.subnet vlan.maskP) = .ok false) :
    assign_ip store vlan newId req = (.reservedIP, store) := by
  unfold assign_ip assignAfterChecks assignValidate
  simp [hin, hres]

theorem assign_ip_of_valueError (store : List AssignmentRec) (vlan : VLANRec)
    (newId : Nat) (req : AssignRequest)
    (hin : ipInNetwork req.ip_address (mkNetwork vlan.subnet vlan.maskP) = true)
    (hres : is_ip_assignable req.ip_address (mkNetwork vlan.subnet vlan.maskP) = .error ()) :
    assign_ip store vlan newId req = (.valueErr, store) := by
  unfold assign_ip assignAfterChecks assignValidate
  simp [hin, hres]

/-! Claim theorems. -/

/-- C1: a released (inactive) Assignment must not block re-assignment of
its address, yet it does. On VLAN 192.168.1.0/24, assigning 192.168.1.10
succeeds; `release_ip` then marks the record inactive without erasing it;
but a second `assign_ip` for the same address is rejected with the
already-assigned `IPAllocationError`, because the duplicate-check query of
`assign_ip` does not filter on `is_active` (and the store's `uq_ip_address`
unique index also spans inactive rows). -/
theorem c1_release_then_reassign_rejected :
    assign_ip [] ⟨1, ipv4 192 168 1 0, 24⟩ 1 ⟨1, ipv4 192 168 1 10, none, "plc-01"⟩ =
      (.ok ⟨1, 1, ipv4 192 168 1 10, none, "plc-01", true⟩,
       [⟨1, 1, ipv4 192 168 1 10, none, "plc-01", true⟩]) ∧
    release_ip [⟨1, 1, ipv4 192 168 1 10, none, "plc-01", true⟩] 1 =
      (true, [⟨1, 1, ipv4 192 168 1 10, none, "plc-01", false⟩]) ∧
    assign_ip [⟨1, 1, ipv4 192 168 1 10, none, "plc-01", false⟩]
        ⟨1, ipv4 192 168 1 0, 24⟩ 2 ⟨1, ipv4 192 168 1 10, none, "plc-02"⟩ =
      (.alreadyAssigned, [⟨1, 1, ipv4 192 168 1 10, none, "plc-01", false⟩]) :=
  ⟨rfl, rfl, rfl⟩

/-- C2 counterexample: the claim asserts `partition("192.168.1.0", "/29")`
succeeds; the code rejects it with the too-small error (a /29 has only six
host addresses, below the required 6 + 1 reserved plus one assignable). -/
theorem c2_counterexample_min_subnet :
    calcSubnetInfo (ipv4 192 168 1 0) (.cidr 29) = .error .insufficientIPSpace :=
  rfl

/-- C2 (amended): `partition("192.168.1.0", "/30")` fails with
`NetworkTooSmall`, and so does `partition("192.168.1.0", "/29")`; the
minimum accepted subnet is a /28, whose assignable range is
192.168.1.7..192.168.1.13. -/
theorem c2_min_subnet_amended :
    calcSubnetInfo (ipv4 192 168 1 0) (.cidr 30) = .error .insufficientIPSpace ∧
    calcSubnetInfo (ipv4 192 168 1 0) (.cidr 29) = .error .insufficientIPSpace ∧
    calcSubnetInfo (ipv4 192 168 1 0) (.cidr 28) =
      .ok (⟨ipv4 192 168 1 0, 28⟩,
        [⟨ipv4 192 168 1 1, ipv4 192 168 1 6, true, "Management IPs (Reserved)"⟩,
         ⟨ipv4 192 168 1 7, ipv4 192 168 1 13, false, "Assignable IPs"⟩,
         ⟨ipv4 192 168 1 14, ipv4 192 168 1 14, true, "Management IP (Reserved)"⟩]) :=
  ⟨rfl, rfl, rfl⟩

/-- C3: on 192.168.1.0/24 the computed gateway, reserved ranges and
assignable bounds are exactly as claimed, but the `assignable_ips` field is
1 — the length of the list of non-reserved ranges — not 247, the number of
assignable addresses. -/
theorem c3_canonical_slash24_eval :
    validate_vlan_configuration 100 (ipv4 192 168 1 0) (.cidr 24) =
      .ok { vlan_id := 100
            netBase := ipv4 192 168 1 0
            maskLen := 24
            default_gateway := ipv4 192 168 1 1
            net_start := ipv4 192 168 1 7
            net_end := ipv4 192 168 1 253
            total_ips := 254
            assignable_ips := 1
            reserved_ranges :=
              [⟨ipv4 192 168 1 1, ipv4 192 168 1 6, true, "Management IPs (Reserved)"⟩,
               ⟨ipv4 192 168 1 254, ipv4 192 168 1 254, true, "Management IP (Reserved)"⟩] } :=
  rfl

/-- C4: two concurrent `assign_ip` calls for 192.168.1.10 on VLAN
192.168.1.0/24, interleaved as check-check-insert-insert over an initially
empty store. The first caller succeeds and commits one record; the second
caller's duplicate checks (run against the pre-insert snapshot) pass, and
its insert then violates the store's `uq_ip_address` constraint, raising
an `IntegrityError` that `assign_ip` does not catch — not the typed
already-assigned error. No duplicate record is created. -/
theorem c4_concurrent_assign_unhandled_integrity_error :
    assignAfterChecks [] ⟨1, ipv4 192 168 1 0, 24⟩ [] 1
        ⟨1, ipv4 192 168 1 10, none, "dev-a"⟩ =
      (.ok ⟨1, 1, ipv4 192 168 1 10, none, "dev-a", true⟩,
       [⟨1, 1, ipv4 192 168 1 10, none, "dev-a", true⟩]) ∧
    assignAfterChecks [] ⟨1, ipv4 192 168 1 0, 24⟩
        [⟨1, 1, ipv4 192 168 1 10, none, "dev-a", true⟩] 2
        ⟨1, ipv4 192 168 1 10, none, "dev-b"⟩ =
      (.integrityErr, [⟨1, 1, ipv4 192 168 1 10, none, "dev-a", true⟩]) :=
  ⟨rfl, rfl⟩

/-- C5: for every store, VLAN whose stored network was accepted at creation
(equivalently, mask length at most 28), MAC address and device name,
`assign_ip` of the VLAN's gateway address or of the VLAN's last host
address fails with `ReservedIPError` and leaves the store unchanged, so no
Assignment record is created. -/
theorem c5_reserved_rejection (store : List AssignmentRec) (vlan : VLANRec)
    (newId : Nat) (mac : Option Nat) (ci : String) (hp : vlan.maskP ≤ 28) :
    assign_ip store vlan newId
        ⟨vlan.vlanKey, getDefaultGateway (mkNetwork vlan.subnet vlan.maskP), mac, ci⟩ =
      (.reservedIP, store) ∧
    assign_ip store vlan newId
        ⟨vlan.vlanKey, lastHostAddr (mkNetwork vlan.subnet vlan.maskP), mac, ci⟩ =
      (.reservedIP, store) := by
  have hml : (mkNetwork vlan.subnet vlan.maskP).maskLen ≤ 28 := hp
  have h16 := numAddresses_lb _ hml
  have h14 := totalHosts_lb _ hml
  constructor
  · apply assign_ip_of_reserved
    · show ipInNetwork (getDefaultGateway (mkNetwork vlan.subnet vlan.maskP)) _ = true
      rw [getDefaultGateway_of_le28 _ hml, ipInNetwork_iff]
      unfold Net.totalHosts at h14
      omega
    · show is_ip_assignable (getDefaultGateway (mkNetwork vlan.subnet vlan.maskP)) _ = _
      rw [getDefaultGateway_of_le28 _ hml]
      exact is_ip_assignable_firstHost _ hml
  · apply assign_ip_of_reserved
    · show ipInNetwork (lastHostAddr (mkNetwork vlan.subnet vlan.maskP)) _ = true
      rw [lastHostAddr_of_le28 _ hml, ipInNetwork_iff]
      unfold Net.totalHosts at h14 ⊢
      omega
    · show is_ip_assignable (lastHostAddr (mkNetwork vlan.subnet vlan.maskP)) _ = _
      rw [lastHostAddr_of_le28 _ hml]
      exact is_ip_assignable_lastHost _ hml

/-- C5 witness: the reserved rejections hold concretely on VLAN
192.168.1.0/24 with an empty store, no MAC, device name d. -/
theorem c5_reserved_rejection_witness :
    (⟨1, ipv4 192 168 1 0, 24⟩ : VLANRec).maskP ≤ 28 ∧
    (assign_ip [] ⟨1, ipv4 192 168 1 0, 24⟩ 5
        ⟨1, getDefaultGateway (mkNetwork (ipv4 192 168 1 0) 24), none, "d"⟩ =
      (.reservedIP, []) ∧
     assign_ip [] ⟨1, ipv4 192 168 1 0, 24⟩ 5
        ⟨1, lastHostAddr (mkNetwork (ipv4 192 168 1 0) 24), none, "d"⟩ =
      (.reservedIP, [])) :=
  ⟨by decide, c5_reserved_rejection [] ⟨1, ipv4 192 168 1 0, 24⟩ 5 none "d" (by decide)⟩

/-- C6: for every network-and-mask input accepted by the partitioning
computation, the returned ranges partition the host range exactly: every
address in the host range lies in exactly one of the returned ranges, and
no address outside it lies in any (so the reserved ranges and the
assignable range are pairwise disjoint and cover the host range with no
gaps). -/
theorem c6_range_partition (subnet : Nat) (mask : MaskInput) (net : Net)
    (ranges : List IPRange)
    (h : calcSubnetInfo subnet mask = .ok (net, ranges)) (x : Nat) :
    ranges.countP (fun r => decide (r.start_ip ≤ x) && decide (x ≤ r.end_ip)) =
      if net.netBase + 1 ≤ x ∧ x ≤ net.netBase + net.totalHosts then 1 else 0 := by
  obtain ⟨-, -, h8, hr⟩ := calcSubnetInfo_ok h
  have hp := maskLen_le28_of_totalHosts net h8
  rw [hr, hostsList_of_le28 net hp,
      generateIpRanges_hostRange net.netBase net.totalHosts h8]
  simp only [List.countP_cons, List.countP_nil, Bool.and_eq_true, decide_eq_true_eq]
  split_ifs <;> omega

/-- C6 witness: on 192.168.1.0/24, the address 192.168.1.100 lies in
exactly one of the returned ranges. -/
theorem c6_range_partition_witness :
    calcSubnetInfo (ipv4 192 168 1 0) (.cidr 24) =
      .ok (⟨ipv4 192 168 1 0, 24⟩,
        [⟨ipv4 192 168 1 1, ipv4 192 168 1 6, true, "Management IPs (Reserved)"⟩,
         ⟨ipv4 192 168 1 7, ipv4 192 168 1 253, false, "Assignable IPs"⟩,
         ⟨ipv4 192 168 1 254, ipv4 192 168 1 254, true, "Management IP (Reserved)"⟩]) ∧
    List.countP
        (fun r => decide (r.start_ip ≤ ipv4 192 168 1 100) &&
                  decide (ipv4 192 168 1 100 ≤ r.end_ip))
        ([⟨ipv4 192 168 1 1, ipv4 192 168 1 6, true, "Management IPs (Reserved)"⟩,
          ⟨ipv4 192 168 1 7, ipv4 192 168 1 253, false, "Assignable IPs"⟩,
          ⟨ipv4 192 168 1 254, ipv4 192 168 1 254, true, "Management IP (Reserved)"⟩] :
          List IPRange) = 1 := by
  have h : calcSubnetInfo (ipv4 192 168 1 0) (.cidr 24) =
      .ok (⟨ipv4 192 168 1 0, 24⟩,
        [⟨ipv4 192 168 1 1, ipv4 192 168 1 6, true, "Management IPs (Reserved)"⟩,
         ⟨ipv4 192 168 1 7, ipv4 192 168 1 253, false, "Assignable IPs"⟩,
         ⟨ipv4 192 168 1 254, ipv4 192 168 1 254, true, "Management IP (Reserved)"⟩]) := rfl
  refine ⟨h, ?_⟩
  have := c6_range_partition (ipv4 192 168 1 0) (.cidr 24) _ _ h (ipv4 192 168 1 100)
  rw [this]
  rw [if_pos (by decide)]

/-- The popcount conversion inverts the contiguous mask of each legal
length. -/
theorem dottedToMaskLen_maskOfLen : ∀ n : Nat, n < 33 →
    dottedToMaskLen (maskOfLen n) = n := by decide

/-- C7: for every network address and every mask length n at most 32, the
partitioning computation returns identical results whether the mask is
given as the CIDR suffix /n or as the equivalent dotted-decimal mask: both
normalize to the same mask length. -/
theorem c7_mask_input_equivalence (subnet n : Nat) (hn : n ≤ 32) :
    calcSubnetInfo subnet (.cidr n) = calcSubnetInfo subnet (.dotted (maskOfLen n)) := by
  have h1 : normalizeMask (.cidr n) = .ok n := by
    simp [normalizeMask, hn]
  have hlt : maskOfLen n < 2 ^ 32 := by
    have hpos : 0 < 2 ^ (32 - n) := Nat.pos_pow_of_pos _ (by norm_num)
    unfold maskOfLen
    omega
  have h2 : normalizeMask (.dotted (maskOfLen n)) = .ok n := by
    have hpos : 0 < 2 ^ (32 - n) := Nat.pos_pow_of_pos _ (by norm_num)
    simp [normalizeMask, dottedToMaskLen_maskOfLen n (by omega)]
    unfold maskOfLen
    omega
  unfold calcSubnetInfo
  rw [h1, h2]

/-- C7 witness: CIDR /24 and dotted mask 255.255.255.0 give identical
results on 192.168.1.0. -/
theorem c7_mask_input_equivalence_witness :
    maskOfLen 24 = ipv4 255 255 255 0 ∧
    calcSubnetInfo (ipv4 192 168 1 0) (.cidr 24) =
      calcSubnetInfo (ipv4 192 168 1 0) (.dotted (maskOfLen 24)) :=
  ⟨by decide, c7_mask_input_equivalence (ipv4 192 168 1 0) 24 (by decide)⟩

/-- C8 counterexample: the store holds one inactive domain with code MFG
and no active domain with that code, so under the claim `create_domain`
should succeed; the code rejects it with the duplicate-code error, because
the unique index on `code` spans inactive rows. -/
theorem c8_counterexample_inactive_code_blocks :
    create_domain [⟨1, "MFG", "Manufacturing", false⟩] 2 "MFG" "Mfg again" true =
      (.duplicateCode, [⟨1, "MFG", "Manufacturing", false⟩]) := rfl

/-- C8 (amended): `create_domain` fails with the duplicate-code error
exactly when any stored domain, active or inactive, already has that code;
in particular a code held solely by an inactive domain cannot be reused,
and the failing call leaves the store unchanged. -/
theorem c8_duplicate_code_any_domain (store : List DomainRec) (newId : Nat)
    (code dname : String) (isActive : Bool) :
    ((create_domain store newId code dname isActive).1 = .duplicateCode ↔
      ∃ d ∈ store, d.code = code) ∧
    ((∃ d ∈ store, d.is_active = false ∧ d.code = code) →
      create_domain store newId code dname isActive = (.duplicateCode, store)) := by
  have hb : store.any (fun d => d.code == code) = true ↔ ∃ d ∈ store, d.code = code := by
    rw [List.any_eq_true]
    constructor
    · rintro ⟨d, hd, hc⟩
      exact ⟨d, hd, by simpa using hc⟩
    · rintro ⟨d, hd, hc⟩
      exact ⟨d, hd, by simpa using hc⟩
  constructor
  · by_cases h : store.any (fun d => d.code == code) = true
    · simp only [create_domain, h, if_true]
      simpa using hb.mp h
    · simp only [create_domain, h, Bool.false_eq_true, if_false]
      constructor
      · intro hcontra
        exact absurd hcontra (by simp)
      · intro hex
        exact absurd (hb.mpr hex) h
  · rintro ⟨d, hd, -, hc⟩
    have h : store.any (fun d => d.code == code) = true := hb.mpr ⟨d, hd, hc⟩
    simp only [create_domain, h, if_true]

/-- C8 witness: the amended characterization applied to a store holding
only an inactive MFG domain. -/
theorem c8_duplicate_code_any_domain_witness :
    (∃ d ∈ [(⟨1, "MFG", "Manufacturing", false⟩ : DomainRec)],
        d.is_active = false ∧ d.code = "MFG") ∧
    create_domain [(⟨1, "MFG", "Manufacturing", false⟩ : DomainRec)] 2 "MFG" "Mfg again" true =
      (.duplicateCode, [⟨1, "MFG", "Manufacturing", false⟩]) :=
  ⟨⟨⟨1, "MFG", "Manufacturing", false⟩, by simp, rfl, rfl⟩,
   (c8_duplicate_code_any_domain [⟨1, "MFG", "Manufacturing", false⟩] 2 "MFG"
      "Mfg again" true).2 ⟨⟨1, "MFG", "Manufacturing", false⟩, by simp, rfl, rfl⟩⟩

/-- C9: deleting a Domain that owns at least one ValueStream fails with
the has-active-children error and leaves the hierarchy unchanged; deleting
an existing Domain that owns none succeeds; and a ValueStream with an
active child Zone can never be deleted. Settled against the spec-modelled
`delete_domain` and `delete_value_stream` (absent from the source
services). -/
theorem c9_deletion_guard (h : Hierarchy) (did vsid : Nat) :
    ((∃ d ∈ h.domains, d.did = did) → (∃ vs ∈ h.value_streams, vs.domainRef = did) →
      delete_domain h did = (.hasActiveChildren, h)) ∧
    ((∃ d ∈ h.domains, d.did = did) → (∀ vs ∈ h.value_streams, vs.domainRef ≠ did) →
      (delete_domain h did).1 = .ok) ∧
    ((∃ vs ∈ h.value_streams, vs.vsId = vsid) →
      (∃ z ∈ h.zones, z.vsRef = vsid ∧ z.is_active = true) →
      delete_value_stream h vsid = (.hasActiveChildren, h)) := by
  refine ⟨?_, ?_, ?_⟩
  · rintro ⟨d, hd, hdid⟩ ⟨vs, hvs, href⟩
    have h1 : h.domains.any (fun d => d.did == did) = true := by
      rw [List.any_eq_true]
      exact ⟨d, hd, by simpa using hdid⟩
    have h2 : h.value_streams.any (fun vs => vs.domainRef == did) = true := by
      rw [List.any_eq_true]
      exact ⟨vs, hvs, by simpa using href⟩
    simp only [delete_domain, h1, h2, if_true]
  · rintro ⟨d, hd, hdid⟩ hnone
    have h1 : h.domains.any (fun d => d.did == did) = true := by
      rw [List.any_eq_true]
      exact ⟨d, hd, by simpa using hdid⟩
    have h2 : h.value_streams.any (fun vs => vs.domainRef == did) = false := by
      rw [List.any_eq_false]
      intro vs hvs
      simpa using hnone vs hvs
    simp only [delete_domain, h1, h2, if_true, Bool.false_eq_true, if_false]
  · rintro ⟨vs, hvs, hid⟩ ⟨z, hz, href, hact⟩
    have h1 : h.value_streams.any (fun vs => vs.vsId == vsid) = true := by
      rw [List.any_eq_true]
      exact ⟨vs, hvs, by simpa using hid⟩
    have h2 : h.zones.any (fun z => z.vsRef == vsid && z.is_active) = true := by
      rw [List.any_eq_true]
      refine ⟨z, hz, ?_⟩
      simp [href, hact]
    simp only [delete_value_stream, h1, h2, if_true]

/-- C9 witness: a hierarchy with domain 1 owning value stream 10 (which
has an active zone) and domain 2 owning nothing. -/
theorem c9_deletion_guard_witness :
    delete_domain ⟨[⟨1, "MFG", "Manufacturing", true⟩, ⟨2, "LOG", "Logistics", true⟩],
        [⟨10, 1, "A2", true⟩], [⟨100, 10, true⟩]⟩ 1 =
      (.hasActiveChildren,
       ⟨[⟨1, "MFG", "Manufacturing", true⟩, ⟨2, "LOG", "Logistics", true⟩],
        [⟨10, 1, "A2", true⟩], [⟨100, 10, true⟩]⟩) ∧
    (delete_domain ⟨[⟨1, "MFG", "Manufacturing", true⟩, ⟨2, "LOG", "Logistics", true⟩],
        [⟨10, 1, "A2", true⟩], [⟨100, 10, true⟩]⟩ 2).1 = .ok ∧
    delete_value_stream ⟨[⟨1, "MFG", "Manufacturing", true⟩, ⟨2, "LOG", "Logistics", true⟩],
        [⟨10, 1, "A2", true⟩], [⟨100, 10, true⟩]⟩ 10 =
      (.hasActiveChildren,
       ⟨[⟨1, "MFG", "Manufacturing", true⟩, ⟨2, "LOG", "Logistics", true⟩],
        [⟨10, 1, "A2", true⟩], [⟨100, 10, true⟩]⟩) := by
  refine ⟨?_, ?_, ?_⟩
  · exact (c9_deletion_guard _ 1 10).1 (by simp) (by simp)
  · exact (c9_deletion_guard _ 2 10).2.1 (by simp) (by simp)
  · exact (c9_deletion_guard _ 1 10).2.2 (by simp) ⟨⟨100, 10, true⟩, by simp, rfl, rfl⟩

/-- C10: on any VLAN whose stored network was accepted at creation (mask
length at most 28), `assign_ip` called with the subnet's network address or
broadcast address does not return a typed error: both pass the containment
check but are absent from the host list, so `hosts.index` raises an
uncaught `ValueError` and the store is left unchanged. -/
theorem c10_network_broadcast_value_error (store : List AssignmentRec)
    (vlan : VLANRec) (newId : Nat) (mac : Option Nat) (ci : String)
    (hp : vlan.maskP ≤ 28) :
    assign_ip store vlan newId
        ⟨vlan.vlanKey, (mkNetwork vlan.subnet vlan.maskP).netBase, mac, ci⟩ =
      (.valueErr, store) ∧
    assign_ip store vlan newId
        ⟨vlan.vlanKey, broadcastAddr (mkNetwork vlan.subnet vlan.maskP), mac, ci⟩ =
      (.valueErr, store) := by
  have hml : (mkNetwork vlan.subnet vlan.maskP).maskLen ≤ 28 := hp
  have h16 := numAddresses_lb _ hml
  constructor
  · apply assign_ip_of_valueError
    · show ipInNetwork ((mkNetwork vlan.subnet vlan.maskP).netBase) _ = true
      rw [ipInNetwork_iff]
      omega
    · exact is_ip_assignable_netBase _ hml
  · apply assign_ip_of_valueError
    · show ipInNetwork (broadcastAddr (mkNetwork vlan.subnet vlan.maskP)) _ = true
      rw [ipInNetwork_iff]
      unfold broadcastAddr
      omega
    · exact is_ip_assignable_broadcast _ hml

/-- C10 witness: on VLAN 192.168.1.0/24, assigning 192.168.1.0 or
192.168.1.255 ends in the uncaught `ValueError` outcome. -/
theorem c10_network_broadcast_value_error_witness :
    (⟨1, ipv4 192 168 1 0, 24⟩ : VLANRec).maskP ≤ 28 ∧
    (assign_ip [] ⟨1, ipv4 192 168 1 0, 24⟩ 5
        ⟨1, (mkNetwork (ipv4 192 168 1 0) 24).netBase, none, "d"⟩ =
      (.valueErr, []) ∧
     assign_ip [] ⟨1, ipv4 192 168 1 0, 24⟩ 5
        ⟨1, broadcastAddr (mkNetwork (ipv4 192 168 1 0) 24), none, "d"⟩ =
      (.valueErr, [])) :=
  ⟨by decide,
   c10_network_broadcast_value_error [] ⟨1, ipv4 192 168 1 0, 24⟩ 5 none "d" (by decide)⟩

end IPMgmt
